import Mathlib

/-!
Verification of the client-side scripts of the dnd-tracker repository
(static/js/main.js and its variants).

The scripts are DOM glue: on page-ready they locate a 2FA code input
(by id, then by a 6-digit pattern attribute, then by maxlength 6),
focus it, attach an input listener that schedules a 500 ms deferred
form submission once the value reaches length 6, and (in one variant)
auto-dismiss error flash messages after five minutes.

The development below is a shallow embedding: DOM elements become a
structure of their relevant attributes, the page becomes a list of
elements plus UI state, and the timer-based behaviors become explicit
state-passing functions over a clock measured in milliseconds.
-/

namespace DndTracker

/-! ## DOM element model and the code-input lookup

`main.js` lines 4-10 (and identically lines 20-26, and the unnamed
variants): the script queries `document.getElementById('code')`, then
`document.querySelector` with an attribute selector for `pattern` equal
to the 6-digit regular expression, then for `maxlength` equal to 6.
-/

/-- A DOM element restricted to the attributes the scripts inspect:
tag name, `id`, `pattern` and `maxlength` attributes. -/
structure Elem where
  tag : String
  id : Option String
  pattern : Option String
  maxlength : Option String
deriving Repr, DecidableEq

/-- The 6-digit regular expression string that appears in the CSS
attribute selector of the source. -/
def sixDigitPattern : String := "[0-9]\x7b6\x7d"

/-- Embedding of `document.getElementById(i)`: the first element whose
`id` attribute equals `i`, or none. -/
def getElementById (elems : List Elem) (i : String) : Option Elem :=
  elems.find? (fun el => el.id == some i)

/-- Does the element match the CSS selector for inputs whose pattern
attribute is the 6-digit regular expression? -/
def isPatternInput (el : Elem) : Bool :=
  el.tag == "input" && el.pattern == some sixDigitPattern

/-- Does the element match the CSS selector for inputs whose maxlength
attribute is the string 6? -/
def isMaxlen6Input (el : Elem) : Bool :=
  el.tag == "input" && el.maxlength == some "6"

/-- Embedding of the lookup in `main.js` lines 4-10: try id `code`
first; if null, take the first input with the 6-digit pattern
attribute; if still null, the first input with maxlength 6. -/
def findCodeInput (elems : List Elem) : Option Elem :=
  match getElementById elems "code" with
  | some el => some el
  | none =>
    match elems.find? isPatternInput with
    | some el => some el
    | none => elems.find? isMaxlen6Input

/-- Does the element match any of the three lookup rules? -/
def matchesLookup (el : Elem) : Bool :=
  el.id == some "code" || isPatternInput el || isMaxlen6Input el

/-! ## Page-ready handlers -/

/-- Page-level UI state: the elements in the document, the currently
focused element, and the elements that carry the auto-submit input
listener. -/
structure PageState where
  elems : List Elem
  focused : Option Elem
  listeners : List Elem
deriving Repr, DecidableEq

/-- Embedding of the first DOMContentLoaded handler (`main.js` lines
2-15): look the code input up and, if found, focus it. -/
def autoFocusHandler (p : PageState) : PageState :=
  match findCodeInput p.elems with
  | some el => { p with focused := some el }
  | none => p

/-- Embedding of the second DOMContentLoaded handler's attachment step
(`main.js` lines 18-37): look the code input up and, if found, register
the auto-submit input listener on it. -/
def autoSubmitHandler (p : PageState) : PageState :=
  match findCodeInput p.elems with
  | some el => { p with listeners := p.listeners ++ [el] }
  | none => p

/-! ## The auto-submit field state machine

`main.js` lines 29-35: on every input event, if the field's value has
length 6, `setTimeout` schedules a callback 500 ms later that runs
`e.target.form.submit()`. Nothing ever calls `clearTimeout`. Times are
milliseconds on an abstract clock.
-/

/-- Result of running the deferred callback body
`e.target.form.submit()` (`main.js` line 32): when the input's `form`
property is null (the input has no owning form), the member access on
null throws a TypeError; otherwise the owning form is submitted. -/
inductive CallbackResult where
  | submitted : String → CallbackResult
  | typeError : CallbackResult
deriving Repr, DecidableEq

/-- Embedding of the callback body at `main.js` line 32, parametrised
by the element's owning form at the moment the timer fires. -/
def submitCallback (form : Option String) : CallbackResult :=
  match form with
  | some f => CallbackResult.submitted f
  | none => CallbackResult.typeError

/-- State of one code-entry field under the auto-submit listener:
current value, owning form (none when detached from any form), the
fire times of pending `setTimeout` timers, the fire times whose
callbacks have run, the performed submissions (time and form), the
times at which a callback threw, and the clock. -/
structure FieldState where
  value : String
  form : Option String
  timers : List Nat
  fired : List Nat
  submits : List (Nat × String)
  errors : List Nat
  now : Nat
deriving Repr, DecidableEq

/-- Advance the clock to `t`, running every pending timer whose fire
time has arrived: each due callback is recorded in `fired` and runs
`submitCallback` on the field's owning form, producing either a
submission or a thrown TypeError. -/
def fireDue (s : FieldState) (t : Nat) : FieldState :=
  let due := s.timers.filter (fun ft => decide (ft ≤ t))
  { s with
    now := t
    timers := s.timers.filter (fun ft => decide (t < ft))
    fired := s.fired ++ due
    submits := s.submits ++ due.filterMap (fun ft =>
      match submitCallback s.form with
      | CallbackResult.submitted f => some (ft, f)
      | CallbackResult.typeError => none)
    errors := s.errors ++ due.filter (fun _ =>
      match submitCallback s.form with
      | CallbackResult.submitted _ => false
      | CallbackResult.typeError => true) }

/-- An input event at time `t` setting the field's value to `v`, with
the listener of `main.js` lines 29-35 attached: timers already due
have fired, the value is updated, and the listener schedules a new
500 ms timer exactly when the new value's length is 6. No existing
timer is cleared. -/
def inputEvent (s : FieldState) (t : Nat) (v : String) : FieldState :=
  let s' := { fireDue s t with value := v }
  if v.length = 6 then { s' with timers := s'.timers ++ [t + 500] } else s'

/-- A fresh field, as at page load: given owning form, empty value,
no timers, nothing fired or submitted, clock at 0. -/
def initField (form : Option String) : FieldState :=
  { value := "", form := form, timers := [], fired := [], submits := [],
    errors := [], now := 0 }

/-! ## The focus-only variant

Two source variants attach only the auto-focus handler (one carries
the comment that auto-submit is disabled to prevent CSRF token
issues). With no input listener registered, an input event merely
updates the field's value.
-/

/-- An input event on a field in the focus-only variant: no listener
is registered, so the event only records the new value and time. -/
def focusOnlyInputEvent (s : FieldState) (t : Nat) (v : String) : FieldState :=
  { s with now := t, value := v }

/-- Run a whole trace of input events (time, value pairs) on a field
in the focus-only variant. -/
def runFocusOnly (s : FieldState) (evs : List (Nat × String)) : FieldState :=
  evs.foldl (fun acc ev => focusOnlyInputEvent acc ev.1 ev.2) s

/-! ## Flash-message auto-dismissal

The variant with flash handling (unnamed part, lines 57-77): at
page-ready, every element of class `alert-error` gets a 5-minute
`setTimeout`. The callback clicks the element's `.btn-close` button if
one exists; otherwise it sets a 0.5 s opacity transition, sets opacity
to 0, and schedules a second 500 ms timer that removes the element.
-/

/-- A flash-message element restricted to what the script touches:
its class list, whether it contains a `.btn-close` descendant, its
inline opacity and transition styles, whether it has been removed from
the document, and how many times its close button has been clicked. -/
structure FlashMsg where
  classes : List String
  hasCloseButton : Bool
  opacity : Option String
  transition : Option String
  removed : Bool
  closeClicks : Nat
deriving Repr, DecidableEq

/-- The dismissal delay: 5 minutes in milliseconds, as written in the
source (`5 * 60 * 1000`). -/
def flashDelay : Nat := 5 * 60 * 1000

/-- Embedding of the outer timer callback (lines 62-74): click the
close button when present, returning no follow-up timer; otherwise
start the 0.5 s fade and return the 500 ms removal delay. -/
def flashDismissCallback (m : FlashMsg) : FlashMsg × Option Nat :=
  if m.hasCloseButton then
    ({ m with closeClicks := m.closeClicks + 1 }, none)
  else
    ({ m with transition := some "opacity 0.5s", opacity := some "0" }, some 500)

/-- Embedding of the inner timer callback (line 72): detach the
element from the document. -/
def flashRemoveCallback (m : FlashMsg) : FlashMsg :=
  { m with removed := true }

/-- The state of one scheduled flash message at wall-clock time `t`,
given the page-load time: untouched before the 5-minute timer fires;
then the dismiss callback's result; and, when the callback scheduled
the removal timer, the removal once that too has fired. -/
def flashStateAt (m : FlashMsg) (load t : Nat) : FlashMsg :=
  if t < load + flashDelay then m
  else
    match flashDismissCallback m with
    | (m1, none) => m1
    | (m1, some d) => if t < load + flashDelay + d then m1 else flashRemoveCallback m1

/-- Page-level flash handling at time `t`: the DOMContentLoaded
handler schedules a timer for exactly the elements matching the
`.alert-error` selector, so those evolve by `flashStateAt` and every
other element is untouched. -/
def flashHandlerStateAt (msgs : List FlashMsg) (load t : Nat) : List FlashMsg :=
  msgs.map (fun m => if m.classes.contains "alert-error" then flashStateAt m load t else m)

end DndTracker

namespace DndTracker

/-! ## Helper lemmas -/

lemma findCodeInput_of_id (elems : List Elem) (el : Elem)
    (h : getElementById elems "code" = some el) :
    findCodeInput elems = some el := by
  simp [findCodeInput, h]

lemma findCodeInput_eq_none (elems : List Elem)
    (h : ∀ el ∈ elems, matchesLookup el = false) :
    findCodeInput elems = none := by
  have h1 : getElementById elems "code" = none := by
    refine List.find?_eq_none.mpr (fun el hel => ?_)
    have := h el hel
    simp [matchesLookup] at this
    simp [this.1]
  have h2 : elems.find? isPatternInput = none := by
    refine List.find?_eq_none.mpr (fun el hel => ?_)
    have := h el hel
    simp [matchesLookup] at this
    simp [this.1.2]
  have h3 : elems.find? isMaxlen6Input = none := by
    refine List.find?_eq_none.mpr (fun el hel => ?_)
    have := h el hel
    simp [matchesLookup] at this
    simp [this.2]
  simp [findCodeInput, h1, h2, h3]

end DndTracker

namespace DndTracker

lemma fireDue_form (s : FieldState) (t : Nat) : (fireDue s t).form = s.form := rfl

lemma inputEvent_form (s : FieldState) (t : Nat) (v : String) :
    (inputEvent s t v).form = s.form := by
  by_cases h : v.length = 6 <;> simp [inputEvent, h, fireDue]

lemma inputEvent_timers (s : FieldState) (t : Nat) (v : String) :
    (inputEvent s t v).timers
      = (fireDue s t).timers ++ (if v.length = 6 then [t + 500] else []) := by
  by_cases h : v.length = 6 <;> simp [inputEvent, h]

lemma mem_timers_fireDue (s : FieldState) (t ft : Nat)
    (hmem : ft ∈ s.timers) (hlt : t < ft) :
    ft ∈ (fireDue s t).timers := by
  simp [fireDue, List.mem_filter]
  exact ⟨hmem, hlt⟩

lemma mem_fired_fireDue (s : FieldState) (t ft : Nat)
    (hmem : ft ∈ s.timers) (hle : ft ≤ t) :
    ft ∈ (fireDue s t).fired := by
  simp [fireDue, List.mem_filter]
  right
  exact ⟨hmem, hle⟩

lemma mem_submits_fireDue (s : FieldState) (t ft : Nat) (f : String)
    (hf : s.form = some f) (hmem : ft ∈ s.timers) (hle : ft ≤ t) :
    (ft, f) ∈ (fireDue s t).submits := by
  simp [fireDue, submitCallback, hf, List.mem_filter]
  right
  exact ⟨hmem, hle⟩

lemma mem_timers_inputEvent (s : FieldState) (t : Nat) (v : String) (ft : Nat)
    (hmem : ft ∈ s.timers) (hlt : t < ft) :
    ft ∈ (inputEvent s t v).timers := by
  rw [inputEvent_timers]
  exact List.mem_append_left _ (mem_timers_fireDue s t ft hmem hlt)

end DndTracker

namespace DndTracker

/-! ## Concrete pages and fields used to instantiate the theorems -/

/-- An input carrying the id `code`, as rendered by the 2FA form. -/
def codeElemEx : Elem :=
  { tag := "input", id := some "code", pattern := none, maxlength := none }

/-- An input carrying the 6-digit pattern attribute but no id. -/
def patternElemEx : Elem :=
  { tag := "input", id := none, pattern := some sixDigitPattern, maxlength := none }

/-- An element that matches none of the three lookup rules. -/
def divElemEx : Elem :=
  { tag := "div", id := some "content", pattern := none, maxlength := none }

/-- A page holding both a pattern-matching input and an id-`code`
input, the pattern one first in document order. -/
def pageBothEx : List Elem := [patternElemEx, codeElemEx]

/-- A page whose only matching element is the id-`code` input. -/
def pageCodeEx : PageState :=
  { elems := [divElemEx, codeElemEx], focused := none, listeners := [] }

/-- A page with no element matching any lookup rule. -/
def pageNoMatchEx : PageState :=
  { elems := [divElemEx], focused := none, listeners := [] }

/-- A page whose only matching element is found via the pattern rule,
with no id-`code` element present. -/
def pagePatternEx : PageState :=
  { elems := [divElemEx, patternElemEx], focused := none, listeners := [] }

/-- A code-entry field owned by a concrete form. -/
def formFieldEx : FieldState := initField (some "totp-form")

/-- A code-entry field with no owning form. -/
def noFormFieldEx : FieldState := initField none

/-! ## Claim theorems -/

/-- C5: element lookup is ordered with first match wins: the element
with id `code` when one exists; otherwise the first input whose
pattern attribute is the 6-digit regular expression; otherwise the
first input whose maxlength attribute is 6. In particular an id match
takes precedence over a pattern match. -/
theorem lookup_order_first_match_wins (elems : List Elem) :
    ((getElementById elems "code").isSome →
      findCodeInput elems = getElementById elems "code") ∧
    (getElementById elems "code" = none → (elems.find? isPatternInput).isSome →
      findCodeInput elems = elems.find? isPatternInput) ∧
    (getElementById elems "code" = none → elems.find? isPatternInput = none →
      findCodeInput elems = elems.find? isMaxlen6Input) := by
  refine ⟨?_, ?_, ?_⟩
  · intro h
    obtain ⟨el, hel⟩ := Option.isSome_iff_exists.mp h
    simp [findCodeInput, hel]
  · intro h1 h2
    obtain ⟨el, hel⟩ := Option.isSome_iff_exists.mp h2
    simp [findCodeInput, h1, hel]
  · intro h1 h2
    simp [findCodeInput, h1, h2]

/-- Witness for C5 on a concrete page holding both an id-`code`
element and a pattern-matching element: the id match is used even
though the pattern element comes first in document order. -/
theorem lookup_order_first_match_wins_witness :
    findCodeInput pageBothEx = some codeElemEx := by
  have h := (lookup_order_first_match_wins pageBothEx).1 (by decide)
  rw [h]
  decide

/-- C8: on page-ready, whenever the lookup rules find an element — by
any of the three rules — the auto-focus handler focuses that element;
in particular every page with an id-`code` input gets that input
focused, and running the handler again is idempotent. -/
theorem focus_on_ready (p : PageState) (el : Elem)
    (h : findCodeInput p.elems = some el) :
    (autoFocusHandler p).focused = some el ∧
    (∀ q : PageState, autoFocusHandler (autoFocusHandler q) = autoFocusHandler q) ∧
    (∀ q : PageState, ∀ e : Elem, getElementById q.elems "code" = some e →
      (autoFocusHandler q).focused = some e) := by
  refine ⟨?_, ?_, ?_⟩
  · simp [autoFocusHandler, h]
  · intro q
    cases hq : findCodeInput q.elems with
    | none => simp [autoFocusHandler, hq]
    | some e => simp [autoFocusHandler, hq]
  · intro q e he
    simp [autoFocusHandler, findCodeInput_of_id q.elems e he]

/-- Witness for C8: a page whose input is found via the pattern rule
gets that input focused, a page with an id-`code` input gets that one
focused, and refocusing the latter page is idempotent. -/
theorem focus_on_ready_witness :
    (autoFocusHandler pagePatternEx).focused = some patternElemEx ∧
    (autoFocusHandler pageCodeEx).focused = some codeElemEx ∧
    autoFocusHandler (autoFocusHandler pageCodeEx) = autoFocusHandler pageCodeEx := by
  have h := focus_on_ready pagePatternEx patternElemEx (by decide)
  exact ⟨h.1, h.2.2 pageCodeEx codeElemEx (by decide), h.2.1 pageCodeEx⟩

/-- C6: on a page where no element matches any of the three lookup
rules, both page-ready handlers do nothing: the page state is
unchanged, so no element is focused, no listener is attached and no
timer can ever be scheduled. -/
theorem no_match_no_action (p : PageState)
    (h : ∀ el ∈ p.elems, matchesLookup el = false) :
    autoFocusHandler p = p ∧ autoSubmitHandler p = p := by
  have hn := findCodeInput_eq_none p.elems h
  constructor <;> simp [autoFocusHandler, autoSubmitHandler, hn]

/-- Witness for C6 on a concrete page holding only a div. -/
theorem no_match_no_action_witness :
    autoFocusHandler pageNoMatchEx = pageNoMatchEx ∧
    autoSubmitHandler pageNoMatchEx = pageNoMatchEx :=
  no_match_no_action pageNoMatchEx (by decide)

end DndTracker

namespace DndTracker

/-- C1: an input event whose value has length exactly 6 schedules a
one-shot 500 ms timer whose callback submits the owning form; an input
event with any other value length schedules nothing. -/
theorem autoSubmit_schedules_iff_len6 (s : FieldState) (t : Nat) (v : String) (f : String)
    (hf : s.form = some f) :
    (inputEvent s t v).timers
      = (fireDue s t).timers ++ (if v.length = 6 then [t + 500] else []) ∧
    (v.length = 6 → (t + 500, f) ∈ (fireDue (inputEvent s t v) (t + 500)).submits) := by
  constructor
  · exact inputEvent_timers s t v
  · intro h6
    refine mem_submits_fireDue _ _ _ f ?_ ?_ le_rfl
    · rw [inputEvent_form]; exact hf
    · rw [inputEvent_timers]
      simp [h6]

/-- Witness for C1: a length-6 value schedules exactly the 500 ms
timer and the form is submitted when it fires; a length-5 value
schedules nothing. -/
theorem autoSubmit_schedules_iff_len6_witness :
    (inputEvent formFieldEx 0 "123456").timers = [500] ∧
    (500, "totp-form") ∈ (fireDue (inputEvent formFieldEx 0 "123456") 500).submits ∧
    (inputEvent formFieldEx 0 "12345").timers = [] := by
  have h6 := autoSubmit_schedules_iff_len6 formFieldEx 0 "123456" "totp-form" rfl
  have h5 := autoSubmit_schedules_iff_len6 formFieldEx 0 "12345" "totp-form" rfl
  refine ⟨?_, ?_, ?_⟩
  · rw [h6.1]; decide
  · simpa using h6.2 (by decide)
  · rw [h5.1]; decide

/-- C9: the trigger condition reads only the value's length, never its
content: input events with values of equal length schedule identically,
and any length-6 value, digits or not, schedules the 500 ms timer. -/
theorem trigger_depends_only_on_length (s : FieldState) (t : Nat) (v w : String)
    (hlen : v.length = w.length) :
    (inputEvent s t v).timers = (inputEvent s t w).timers ∧
    (v.length = 6 → (t + 500) ∈ (inputEvent s t v).timers) := by
  constructor
  · rw [inputEvent_timers, inputEvent_timers, hlen]
  · intro h6
    rw [inputEvent_timers]
    simp [h6]

/-- Witness for C9: a six-character value of non-digits schedules
exactly as the all-digit value of the same length does. -/
theorem trigger_depends_only_on_length_witness :
    (inputEvent formFieldEx 0 "ab!-x?").timers = (inputEvent formFieldEx 0 "123456").timers ∧
    500 ∈ (inputEvent formFieldEx 0 "ab!-x?").timers := by
  have h := trigger_depends_only_on_length formFieldEx 0 "ab!-x?" "123456" (by decide)
  refine ⟨h.1, ?_⟩
  simpa using h.2 (by decide)

/-- C4: a pending-submit timer is never canceled by a later input
event: after a length-6 value schedules the 500 ms timer, a further
edit before the delay elapses leaves the timer pending, and its
callback still runs at its fire time. -/
theorem pending_timer_never_canceled (s : FieldState) (t t' : Nat) (v v' : String)
    (h6 : v.length = 6) (_htt : t ≤ t') (hlt : t' < t + 500) :
    (t + 500) ∈ (inputEvent (inputEvent s t v) t' v').timers ∧
    (t + 500) ∈ (fireDue (inputEvent (inputEvent s t v) t' v') (t + 500)).fired := by
  have h1 : (t + 500) ∈ (inputEvent s t v).timers := by
    rw [inputEvent_timers]; simp [h6]
  have h2 := mem_timers_inputEvent (inputEvent s t v) t' v' (t + 500) h1 hlt
  exact ⟨h2, mem_fired_fireDue _ _ _ h2 le_rfl⟩

/-- Witness for C4: the timer scheduled at time 0 survives the edit at
time 200 and fires at time 500. -/
theorem pending_timer_never_canceled_witness :
    500 ∈ (inputEvent (inputEvent formFieldEx 0 "123456") 200 "1234567").timers ∧
    500 ∈ (fireDue (inputEvent (inputEvent formFieldEx 0 "123456") 200 "1234567") 500).fired := by
  have h := pending_timer_never_canceled formFieldEx 0 200 "123456" "1234567"
    (by decide) (by decide) (by decide)
  simpa using h

end DndTracker

namespace DndTracker

/-- C3 counterexample: the listener never clears a timer, so two
length-6 input events 100 ms apart leave the field at time 100 with
two pending-submit timers (fire times 500 and 600) at once, refuting
the at-most-one-pending-timer invariant. -/
theorem two_pending_timers_cex :
    (inputEvent (inputEvent formFieldEx 0 "123456") 100 "654321").timers = [500, 600] ∧
    (inputEvent (inputEvent formFieldEx 0 "123456") 100 "654321").now = 100 ∧
    ¬ ((inputEvent (inputEvent formFieldEx 0 "123456") 100 "654321").timers.length ≤ 1) := by
  decide

/-- C3 amended: each length-6 input event schedules one more timer and
cancels none, so the pending timers after the event are exactly the
previously pending not-yet-due ones plus the new 500 ms timer; their
number is unbounded across a sequence of events. -/
theorem pending_timers_accumulate (s : FieldState) (t : Nat) (v : String)
    (h6 : v.length = 6) :
    (inputEvent s t v).timers
      = s.timers.filter (fun ft => decide (t < ft)) ++ [t + 500] := by
  rw [inputEvent_timers]
  simp [h6, fireDue]

/-- Witness for the amended C3: two close length-6 events accumulate
two pending timers. -/
theorem pending_timers_accumulate_witness :
    (inputEvent (inputEvent formFieldEx 0 "111111") 100 "222222").timers = [500, 600] := by
  have h := pending_timers_accumulate (inputEvent formFieldEx 0 "111111") 100 "222222" (by decide)
  rw [h]
  decide

/-- C2 counterexample: on a field with no owning form, the 500 ms
callback scheduled by a length-6 value is not a silent no-op: it
evaluates the null form and throws a TypeError when it fires at time
500 (no submission occurs). -/
theorem missing_form_throws_cex :
    submitCallback (inputEvent noFormFieldEx 0 "123456").form = CallbackResult.typeError ∧
    (fireDue (inputEvent noFormFieldEx 0 "123456") 500).errors = [500] ∧
    (fireDue (inputEvent noFormFieldEx 0 "123456") 500).submits = [] := by
  decide

/-- C2 amended: when the field has no owning form at the moment its
pending timers fire, no submission is performed, but each due callback
throws a TypeError instead of silently doing nothing. -/
theorem missing_form_callback_typeError (s : FieldState) (t : Nat)
    (hform : s.form = none) :
    submitCallback s.form = CallbackResult.typeError ∧
    (fireDue s t).submits = s.submits ∧
    (fireDue s t).errors = s.errors ++ s.timers.filter (fun ft => decide (ft ≤ t)) := by
  refine ⟨by rw [hform]; rfl, ?_, ?_⟩ <;>
    simp [fireDue, submitCallback, hform]

/-- Witness for the amended C2: concrete formless field at time 500. -/
theorem missing_form_callback_typeError_witness :
    submitCallback (inputEvent noFormFieldEx 0 "999999").form = CallbackResult.typeError ∧
    (fireDue (inputEvent noFormFieldEx 0 "999999") 500).submits
      = (inputEvent noFormFieldEx 0 "999999").submits := by
  have h := missing_form_callback_typeError (inputEvent noFormFieldEx 0 "999999") 500 (by decide)
  exact ⟨h.1, h.2.1⟩

end DndTracker

namespace DndTracker

lemma runFocusOnly_submits_timers (s : FieldState) (evs : List (Nat × String)) :
    (runFocusOnly s evs).submits = s.submits ∧ (runFocusOnly s evs).timers = s.timers := by
  induction evs generalizing s with
  | nil => exact ⟨rfl, rfl⟩
  | cons ev rest ih =>
    have h := ih (focusOnlyInputEvent s ev.1 ev.2)
    simpa [runFocusOnly, focusOnlyInputEvent] using h

/-- C10: in the focus-only source variants no input listener is
attached, so across every sequence of input events, length-6 values
included, the field never schedules a timer and the owning form is
never submitted programmatically. -/
theorem focus_only_never_submits (form : Option String) (evs : List (Nat × String)) :
    (runFocusOnly (initField form) evs).submits = [] ∧
    (runFocusOnly (initField form) evs).timers = [] := by
  have h := runFocusOnly_submits_timers (initField form) evs
  simpa [initField] using h

end DndTracker

namespace DndTracker

/-- A concrete error flash message without a close button. -/
def flashMsgEx : FlashMsg :=
  { classes := ["alert", "alert-error"], hasCloseButton := false, opacity := none,
    transition := none, removed := false, closeClicks := 0 }

/-- C7: every element carrying the error class at page load is
scheduled (and only those), is untouched before 300000 ms have
elapsed, and is then dismissed exactly once: its close button is
clicked once when it has one, and otherwise its opacity fades to zero
over 0.5 s and the element is detached once the follow-up 500 ms
timer has fired. -/
theorem flash_auto_dismiss (m : FlashMsg) (load t : Nat)
    (hc : m.classes.contains "alert-error" = true)
    (h0 : m.closeClicks = 0) (hr : m.removed = false) :
    flashDelay = 300000 ∧
    flashHandlerStateAt [m] load t = [flashStateAt m load t] ∧
    (t < load + flashDelay → flashStateAt m load t = m) ∧
    (load + flashDelay ≤ t → m.hasCloseButton = true →
      (flashStateAt m load t).closeClicks = 1 ∧
      (flashStateAt m load t).removed = false) ∧
    (load + flashDelay ≤ t → m.hasCloseButton = false →
      (flashStateAt m load t).opacity = some "0" ∧
      (flashStateAt m load t).transition = some "opacity 0.5s" ∧
      ((flashStateAt m load t).removed = true ↔ load + flashDelay + 500 ≤ t)) := by
  have hmem : "alert-error" ∈ m.classes := by simpa using hc
  refine ⟨rfl, ?_, ?_, ?_, ?_⟩
  · simp [flashHandlerStateAt, hmem]
  · intro hlt
    simp [flashStateAt, hlt]
  · intro hge hb
    simp [flashStateAt, flashDismissCallback, Nat.not_lt.mpr hge, hb, h0, hr]
  · intro hge hb
    by_cases hin : t < load + flashDelay + 500
    · simp [flashStateAt, flashDismissCallback, Nat.not_lt.mpr hge, hb, hin, hr]
    · simp [flashStateAt, flashDismissCallback, flashRemoveCallback,
        Nat.not_lt.mpr hge, hb, hin]
      omega

/-- Witness for C7: a concrete error message with no close button is
untouched one millisecond before the five-minute mark and is detached
by 300500 ms after load. -/
theorem flash_auto_dismiss_witness :
    flashStateAt flashMsgEx 0 299999 = flashMsgEx ∧
    (flashStateAt flashMsgEx 0 300500).removed = true := by
  have h1 := flash_auto_dismiss flashMsgEx 0 299999 (by decide) rfl rfl
  have h2 := flash_auto_dismiss flashMsgEx 0 300500 (by decide) rfl rfl
  refine ⟨h1.2.2.1 (by decide), ?_⟩
  exact ((h2.2.2.2.2 (by decide) rfl).2.2).mpr (by decide)

end DndTracker
